import Mathlib

/-!
Verification development for the arcade camera subsystem
(`src/arcade/camera/...`): vector/quaternion math of
`controllers/simple_controller_functions.py`, the perspective projector of
`perspective.py`, and the camera stack of `stack.py`.

Python floats are idealised as real numbers; fallible Python code
(raising statements, divisions that can raise `ZeroDivisionError`) is
embedded with explicit error values.
-/

/-- Python exception values that the embedded code can surface.
`blockError` stands for an arbitrary exception raised by a caller's
`with`-block. -/
inductive PyErr where
  | zeroDivisionError
  | attributeError
  | valueError
  | indexError
  | typeError
  | blockError
  deriving DecidableEq

/-- Checked real division: Python `a / b`, which raises
`ZeroDivisionError` when `b == 0`. -/
noncomputable def pydiv (a b : ℝ) : Except PyErr ℝ :=
  if b = 0 then .error .zeroDivisionError else .ok (a / b)

/-- Dot product of 3-tuples (pyglet `Vec3.dot`). -/
def dot3 (a b : ℝ × ℝ × ℝ) : ℝ :=
  a.1 * b.1 + a.2.1 * b.2.1 + a.2.2 * b.2.2

/-- Cross product of 3-tuples (pyglet `Vec3.cross`). -/
def cross3 (a b : ℝ × ℝ × ℝ) : ℝ × ℝ × ℝ :=
  (a.2.1 * b.2.2 - a.2.2 * b.2.1,
   a.2.2 * b.1 - a.1 * b.2.2,
   a.1 * b.2.1 - a.2.1 * b.1)

/-- Scalar multiple of a 3-tuple (helper for stating algebraic lemmas). -/
def smul3 (t : ℝ) (v : ℝ × ℝ × ℝ) : ℝ × ℝ × ℝ :=
  (t * v.1, t * v.2.1, t * v.2.2)

/-- Magnitude of a 3-tuple (pyglet `Vec3.__abs__`). -/
noncomputable def mag3 (v : ℝ × ℝ × ℝ) : ℝ :=
  Real.sqrt (dot3 v v)

/-- Modelled from the spec: pyglet `Vec3.normalize` (external library code,
not in `src/`), which divides each component by the vector's magnitude and
returns the vector unchanged when the magnitude is zero. -/
noncomputable def normalize3 (v : ℝ × ℝ × ℝ) : ℝ × ℝ × ℝ :=
  if mag3 v = 0 then v else (v.1 / mag3 v, v.2.1 / mag3 v, v.2.2 / mag3 v)

/-- Python `math.radians`. -/
noncomputable def radians (degrees : ℝ) : ℝ :=
  degrees * Real.pi / 180

/-- Modelled from the spec: the record `arcade.camera.data.CameraData`
(its defining module is not under `src/`): viewport, position, up,
forward and zoom, exactly the fields §3 of the spec lists and the
`src/` code reads and writes. -/
structure CameraData where
  viewport : ℤ × ℤ × ℤ × ℤ
  position : ℝ × ℝ × ℝ
  up : ℝ × ℝ × ℝ
  forward : ℝ × ℝ × ℝ
  zoom : ℝ

/-- Modelled from the spec: the record
`arcade.camera.data.PerspectiveProjectionData` (not under `src/`):
aspect ratio, field of view in degrees, near and far planes. -/
structure PerspectiveProjectionData where
  aspect : ℝ
  fov : ℝ
  near : ℝ
  far : ℝ

/-- `quaternion_rotation` from
`src/arcade/camera/controllers/simple_controller_functions.py`
(lines 20-41), translated literally: the angle's sign is inverted,
a quaternion is built from half-angle sine/cosine, and the expanded
quaternion-sandwich formula is applied to the vector. -/
noncomputable def quaternion_rotation (_axis : ℝ × ℝ × ℝ) (_vector : ℝ × ℝ × ℝ)
    (_angle : ℝ) : ℝ × ℝ × ℝ :=
  let _rotation_rads := -(radians _angle)
  let p1 := _vector.1
  let p2 := _vector.2.1
  let p3 := _vector.2.2
  let _c2 := Real.cos (_rotation_rads / 2)
  let _s2 := Real.sin (_rotation_rads / 2)
  let q0 := _c2
  let q1 := _s2 * _axis.1
  let q2 := _s2 * _axis.2.1
  let q3 := _s2 * _axis.2.2
  let q0_2 := q0 ^ 2
  let q1_2 := q1 ^ 2
  let q2_2 := q2 ^ 2
  let q3_2 := q3 ^ 2
  let q01 := q0 * q1
  let q02 := q0 * q2
  let q03 := q0 * q3
  let q12 := q1 * q2
  let q13 := q1 * q3
  let q23 := q2 * q3
  let _x := p1 * (q0_2 + q1_2 - q2_2 - q3_2) + 2 * (p2 * (q12 - q03) + p3 * (q02 + q13))
  let _y := p2 * (q0_2 - q1_2 + q2_2 - q3_2) + 2 * (p1 * (q03 + q12) + p3 * (q23 - q01))
  let _z := p3 * (q0_2 - q1_2 - q2_2 + q3_2) + 2 * (p1 * (q13 - q02) + p2 * (q01 + q23))
  (_x, _y, _z)

/-- The pure quaternion-sandwich polynomial of `quaternion_rotation`,
abstracted over the four quaternion components (used to factor the
algebraic lemmas; `quaternion_rotation` is exactly this applied to the
half-angle cosine/sine, see `quaternion_rotation_eq_sandwich`). -/
noncomputable def quaternion_sandwich (q0 q1 q2 q3 : ℝ) (p : ℝ × ℝ × ℝ) : ℝ × ℝ × ℝ :=
  (p.1 * (q0 ^ 2 + q1 ^ 2 - q2 ^ 2 - q3 ^ 2)
     + 2 * (p.2.1 * (q1 * q2 - q0 * q3) + p.2.2 * (q0 * q2 + q1 * q3)),
   p.2.1 * (q0 ^ 2 - q1 ^ 2 + q2 ^ 2 - q3 ^ 2)
     + 2 * (p.1 * (q0 * q3 + q1 * q2) + p.2.2 * (q2 * q3 - q0 * q1)),
   p.2.2 * (q0 ^ 2 - q1 ^ 2 - q2 ^ 2 + q3 ^ 2)
     + 2 * (p.1 * (q1 * q3 - q0 * q2) + p.2.1 * (q0 * q1 + q2 * q3)))

/-- Modelled from the spec: pyglet's `Mat4` constructor (external library,
not in `src/`).  The sixteen values are stored in column-major order, so
value `4*c + r` is entry (row `r`, column `c`). -/
noncomputable def pygletMat4
    (v0 v1 v2 v3 v4 v5 v6 v7 v8 v9 v10 v11 v12 v13 v14 v15 : ℝ) :
    Matrix (Fin 4) (Fin 4) ℝ :=
  Matrix.of fun i j =>
    match j.val, i.val with
    | 0, 0 => v0
    | 0, 1 => v1
    | 0, 2 => v2
    | 0, 3 => v3
    | 1, 0 => v4
    | 1, 1 => v5
    | 1, 2 => v6
    | 1, 3 => v7
    | 2, 0 => v8
    | 2, 1 => v9
    | 2, 2 => v10
    | 2, 3 => v11
    | 3, 0 => v12
    | 3, 1 => v13
    | 3, 2 => v14
    | 3, 3 => v15
    | _, _ => 0

/-- Modelled from the spec: pyglet's `Mat4.__invert__` (external library,
not in `src/`): cofactor inversion dividing by the determinant, so a zero
determinant surfaces Python's `ZeroDivisionError`; on a nonzero
determinant it returns the matrix inverse. -/
noncomputable def mat4_invert (M : Matrix (Fin 4) (Fin 4) ℝ) :
    Except PyErr (Matrix (Fin 4) (Fin 4) ℝ) :=
  if M.det = 0 then .error .zeroDivisionError else .ok M⁻¹

/-- Modelled from the spec: pyglet's `Mat4.perspective_projection`
(external library, not in `src/`): the standard perspective matrix built
from the frustum extents, whose divisions by `z_far - z_near`, the frustum
width/height and the aspect ratio raise `ZeroDivisionError` when the
denominator is zero (in particular when `near == far`). -/
noncomputable def perspective_projection (aspect z_near z_far fov : ℝ) :
    Except PyErr (Matrix (Fin 4) (Fin 4) ℝ) :=
  let xy_max := z_near * Real.tan (fov * Real.pi / 360)
  let y_min := -xy_max
  let x_min := -xy_max
  let width := xy_max - x_min
  let height := xy_max - y_min
  let depth := z_far - z_near
  (pydiv (-(z_far + z_near)) depth).bind fun q =>
    (pydiv (-2 * z_far * z_near) depth).bind fun qn =>
      (pydiv (2 * z_near) width).bind fun w0 =>
        (pydiv w0 aspect).bind fun w =>
          (pydiv (2 * z_near) height).bind fun h =>
            .ok (pygletMat4 w 0 0 0 0 h 0 0 0 0 q (-1) 0 0 qn 0)

/-- `PerspectiveProjector`'s data: the `_view` and `_projection` packs of
data the class owns (`src/arcade/camera/perspective.py`, `__init__`). -/
structure PerspectiveProjector where
  _view : CameraData
  _projection : PerspectiveProjectionData

/-- `PerspectiveProjector._generate_projection_matrix`
(`src/arcade/camera/perspective.py`, lines 65-80): the effective fov is
`fov / zoom` (a Python division, raising on `zoom == 0`), then the pyglet
perspective projection is built. -/
noncomputable def _generate_projection_matrix (p : PerspectiveProjector) :
    Except PyErr (Matrix (Fin 4) (Fin 4) ℝ) :=
  (pydiv p._projection.fov p._view.zoom).bind fun _true_fov =>
    perspective_projection p._projection.aspect p._projection.near
      p._projection.far _true_fov

/-- `PerspectiveProjector._generate_view_matrix`
(`src/arcade/camera/perspective.py`, lines 82-96), translated literally:
normalize forward and up, `ri = fo.cross(up)`, re-orthogonalized
`up = ri.cross(fo)` (never normalized again), and the look-at matrix
with the basis vectors in the first three columns of each row group and
the negated dot products with the position in the last column group. -/
noncomputable def _generate_view_matrix (view : CameraData) :
    Matrix (Fin 4) (Fin 4) ℝ :=
  let fo := normalize3 view.forward
  let up := normalize3 view.up
  let ri := cross3 fo up
  let up := cross3 ri fo
  let po := view.position
  pygletMat4
    ri.1 up.1 (-fo.1) 0
    ri.2.1 up.2.1 (-fo.2.1) 0
    ri.2.2 up.2.2 (-fo.2.2) 0
    (-(dot3 ri po)) (-(dot3 up po)) (dot3 fo po) 1

/-- `PerspectiveProjector.map_coordinate`
(`src/arcade/camera/perspective.py`, lines 132-149), translated literally:
normalized device coordinates from the viewport, a point on the near plane
(`z = -1`), inversion of `projection @ view`, and the mapped x/y pair.
Failures of the Python divisions and of the matrix inversion are
propagated as error values. -/
noncomputable def map_coordinate (p : PerspectiveProjector) (screen : ℝ × ℝ) :
    Except PyErr (ℝ × ℝ) :=
  (pydiv (2 * (screen.1 - (p._view.viewport.1 : ℝ))) (p._view.viewport.2.2.1 : ℝ)).bind
    fun sx =>
  (pydiv (2 * (screen.2 - (p._view.viewport.2.1 : ℝ))) (p._view.viewport.2.2.2 : ℝ)).bind
    fun sy =>
  let screen_x := sx - 1
  let screen_y := sy - 1
  let _view := _generate_view_matrix p._view
  (_generate_projection_matrix p).bind fun _projection =>
  (mat4_invert (_projection * _view)).bind fun _full =>
  let _mapped_position := _full.mulVec ![screen_x, screen_y, -1, 1]
  .ok (_mapped_position 0, _mapped_position 1)

/-- The rendering-context state the projector code touches: the
`current_camera` slot, the context viewport and the installed projection
and view matrices (spec §6; the fields `use` assigns in
`src/arcade/camera/perspective.py`, lines 98-112). -/
structure Window where
  current_camera : Option PerspectiveProjector
  viewport : ℤ × ℤ × ℤ × ℤ
  projection : Matrix (Fin 4) (Fin 4) ℝ
  view : Matrix (Fin 4) (Fin 4) ℝ

/-- `PerspectiveProjector.use` (`src/arcade/camera/perspective.py`,
lines 98-112): sets `current_camera` to this projector FIRST, then
generates the matrices (projection generation can raise, e.g. on
`near == far` or `zoom == 0`) and installs viewport and matrices.  The
second component is the exception `use` raises, if any; on an exception
the camera slot has already been reassigned but the rest is untouched,
exactly as in the Python statement order. -/
noncomputable def use (p : PerspectiveProjector) (w : Window) : Window × Option PyErr :=
  let w1 : Window := { w with current_camera := some p }
  match _generate_projection_matrix p with
  | .error e => (w1, some e)
  | .ok _projection =>
    let _view := _generate_view_matrix p._view
    ({ w1 with viewport := p._view.viewport, projection := _projection, view := _view },
     none)

/-- `PerspectiveProjector.activate` (`src/arcade/camera/perspective.py`,
lines 114-130): the generator-based context manager
`previous_projector = current_camera; try: use(); yield; finally:
previous_projector.use()`.  The caller's `with`-block is modelled as a
state transformer together with a flag saying whether it raised; the
result is the final window state and the exception that propagates out of
the `with` statement, if any.  When `current_camera` was `None`,
`previous_projector.use()` in the `finally` raises `AttributeError`
(Python `None` has no attribute `use`), which replaces any pending
exception. -/
noncomputable def activate (p : PerspectiveProjector) (block : Window → Window × Bool)
    (w : Window) : Window × Option PyErr :=
  let previous_projector := w.current_camera
  let entry := use p w
  let afterBlock : Window × Option PyErr :=
    match entry.2 with
    | some e => (entry.1, some e)
    | none =>
      let b := block entry.1
      (b.1, if b.2 then some PyErr.blockError else none)
  match previous_projector with
  | none => (afterBlock.1, some PyErr.attributeError)
  | some q =>
    let fin := use q afterBlock.1
    (fin.1,
     match fin.2 with
     | some e => some e
     | none => afterBlock.2)

/-- `CameraState` from `src/arcade/camera/stack.py` (lines 11-16): the
snapshot tuple of view matrix, projection matrix, viewport, optional
scissor rectangle and the projector that produced it. -/
structure CameraState where
  view : Matrix (Fin 4) (Fin 4) ℝ
  projection : Matrix (Fin 4) (Fin 4) ℝ
  viewport : ℤ × ℤ × ℤ × ℤ
  scissor : Option (ℤ × ℤ × ℤ × ℤ)
  projector : PerspectiveProjector

/-- `CameraStack` from `src/arcade/camera/stack.py` (lines 19-38).  The
`_context` reference is not modelled: the only statement that touches it
is the file's final line, which is truncated mid-expression
(`self._context.`). -/
structure CameraStack where
  _stack : List CameraState

/-- `CameraStack.__init__` (`src/arcade/camera/stack.py`, lines 21-23):
the stack starts out as the EMPTY list `[]`. -/
def CameraStack.init : CameraStack := ⟨[]⟩

/-- `CameraStack.push` (`src/arcade/camera/stack.py`, lines 25-26):
`list.append`, appending at the top end. -/
def CameraStack.push (s : CameraStack) (camera_state : CameraState) : CameraStack :=
  ⟨s._stack ++ [camera_state]⟩

/-- `CameraStack.pop` (`src/arcade/camera/stack.py`, lines 28-31): raises
`ValueError` when the length is exactly 1; otherwise Python `list.pop()`,
which returns the last element and raises `IndexError` on an empty
list. -/
def CameraStack.pop (s : CameraStack) : Except PyErr (CameraState × CameraStack) :=
  if s._stack.length = 1 then .error .valueError
  else
    match s._stack.getLast? with
    | none => .error .indexError
    | some c => .ok (c, ⟨s._stack.dropLast⟩)

/-- `CameraStack.peek` (`src/arcade/camera/stack.py`, lines 33-34):
`self._stack[-1]`, raising `IndexError` on an empty list. -/
def CameraStack.peek (s : CameraStack) : Except PyErr CameraState :=
  match s._stack.getLast? with
  | none => .error .indexError
  | some c => .ok c

/-- `CameraStack.clear` (`src/arcade/camera/stack.py`, lines 36-38):
`self._stack.clear()` empties the list entirely; the following statement
(`self._context.`) is truncated mid-expression in the source and in any
case starts with an access to the context, not the stack. -/
def CameraStack.clear (_s : CameraStack) : CameraStack :=
  ⟨[]⟩

/-- `rotate_around_forward`
(`src/arcade/camera/controllers/simple_controller_functions.py`,
lines 44-45): roll the up vector about the forward axis. -/
noncomputable def rotate_around_forward (data : CameraData) (angle : ℝ) : CameraData :=
  { data with up := quaternion_rotation data.forward data.up angle }

/-- `rotate_around_up` (same file, lines 48-49): yaw the forward vector
about the up axis. -/
noncomputable def rotate_around_up (data : CameraData) (angle : ℝ) : CameraData :=
  { data with forward := quaternion_rotation data.up data.forward angle }

/-- Modelled from the spec: a Python call of pyglet's `Vec3.cross` with
THREE positional float arguments.  `Vec3.cross` is a one-parameter method
taking a single `Vec3` (its correct use is `fo.cross(up)` in
`_generate_view_matrix`, `src/arcade/camera/perspective.py` line 88), so
passing three arguments raises `TypeError` before any arithmetic. -/
noncomputable def vec3_cross_three_args (_self : ℝ × ℝ × ℝ) (_x _y _z : ℝ) :
    Except PyErr (ℝ × ℝ × ℝ) :=
  .error .typeError

/-- `rotate_around_right` (same file, lines 52-56).  Line 53 is
`Vec3(*data.forward).cross(*data.up)`: the `*` unpacks the up tuple into
three positional arguments to the one-parameter `Vec3.cross`, so the very
first statement raises `TypeError` on every invocation.  The continuation
mirrors lines 54-56 (rotate BOTH vectors about the same pre-rotation
axis), but it is unreachable. -/
noncomputable def rotate_around_right (data : CameraData) (angle : ℝ) :
    Except PyErr CameraData :=
  (vec3_cross_three_args data.forward data.up.1 data.up.2.1 data.up.2.2).bind
    fun _crossed_vec =>
      let _right := _crossed_vec
      .ok { data with forward := quaternion_rotation _right data.forward angle,
                      up := quaternion_rotation _right data.up angle }

/-- `_interpolate_3D` (same file, lines 59-63). -/
noncomputable def _interpolate_3D (s e : ℝ × ℝ × ℝ) (t : ℝ) : ℝ × ℝ × ℝ :=
  (s.1 + t * (e.1 - s.1), s.2.1 + t * (e.2.1 - s.2.1), s.2.2 + t * (e.2.2 - s.2.2))

/-- `simple_follow` (same file, lines 68-77): move the position linearly
towards the target. -/
noncomputable def simple_follow (speed : ℝ) (target : ℝ × ℝ × ℝ)
    (data : CameraData) : CameraData :=
  { data with position := _interpolate_3D data.position target speed }

/-- `simple_follow_2D` (same file, lines 80-88): delegates to
`simple_follow` with the Python tuple concatenation `target + (0,)`,
i.e. a target z of 0. -/
noncomputable def simple_follow_2D (speed : ℝ) (target : ℝ × ℝ)
    (data : CameraData) : CameraData :=
  simple_follow speed (target.1, target.2, 0) data

/-! Concrete fixtures used by witnesses and counterexamples. -/

/-- A well-formed camera: full-window viewport, origin position, +Y up,
-Z forward, zoom 1 (the default data of `PerspectiveProjector.__init__`). -/
noncomputable def cam0 : CameraData :=
  ⟨(0, 0, 800, 600), (0, 0, 0), (0, 1, 0), (0, 0, -1), 1⟩

/-- A camera whose position has a nonzero z component. -/
noncomputable def camZ : CameraData :=
  ⟨(0, 0, 800, 600), (0, 0, 1), (0, 1, 0), (0, 0, -1), 1⟩

/-- A camera whose up vector (0,3,4) is NOT perpendicular to its forward
vector (0,0,-1). -/
noncomputable def view_c3 : CameraData :=
  ⟨(0, 0, 800, 600), (0, 0, 0), (0, 3, 4), (0, 0, -1), 1⟩

/-- A well-formed perspective projection (near 1 < far 100). -/
noncomputable def projData0 : PerspectiveProjectionData := ⟨4 / 3, 90, 1, 100⟩

/-- A well-formed projector. -/
noncomputable def proj0 : PerspectiveProjector := ⟨cam0, projData0⟩

/-- A second well-formed projector (the one being activated). -/
noncomputable def projB : PerspectiveProjector := ⟨camZ, projData0⟩

/-- A projector with `near == far == 1`, whose projection matrix
generation divides by `far - near == 0`. -/
noncomputable def projSingular : PerspectiveProjector := ⟨cam0, ⟨1, 90, 1, 1⟩⟩

/-- A window whose current camera is `proj0`. -/
noncomputable def w0 : Window := ⟨some proj0, (0, 0, 800, 600), 0, 0⟩

/-- A window with no current camera (the state the docstring of
`activate` warns about). -/
noncomputable def wNone : Window := ⟨none, (0, 0, 800, 600), 0, 0⟩

/-- A caller block that raises. -/
def blockRaise : Window → Window × Bool := fun w => (w, true)

/-- A caller block that runs normally. -/
def blockOk : Window → Window × Bool := fun w => (w, false)

/-- A concrete camera-stack entry. -/
noncomputable def st0 : CameraState := ⟨0, 0, (0, 0, 800, 600), none, proj0⟩
lemma quaternion_rotation_eq_sandwich (_axis _vector : ℝ × ℝ × ℝ) (_angle : ℝ) :
    quaternion_rotation _axis _vector _angle =
      quaternion_sandwich (Real.cos ((-(radians _angle)) / 2))
        (Real.sin ((-(radians _angle)) / 2) * _axis.1)
        (Real.sin ((-(radians _angle)) / 2) * _axis.2.1)
        (Real.sin ((-(radians _angle)) / 2) * _axis.2.2) _vector := rfl

/-- Quaternion norm multiplicativity: the sandwich scales squared length
by the square of the quaternion's squared norm.  Pure polynomial identity. -/
lemma quaternion_sandwich_norm (q0 q1 q2 q3 : ℝ) (p : ℝ × ℝ × ℝ) :
    dot3 (quaternion_sandwich q0 q1 q2 q3 p) (quaternion_sandwich q0 q1 q2 q3 p) =
      (q0 ^ 2 + q1 ^ 2 + q2 ^ 2 + q3 ^ 2) ^ 2 * dot3 p p := by
  simp only [quaternion_sandwich, dot3]
  ring

/-- Sandwiching with the conjugate quaternion undoes the sandwich up to
the square of the quaternion's squared norm.  Pure polynomial identity. -/
lemma quaternion_sandwich_conj (q0 q1 q2 q3 : ℝ) (p : ℝ × ℝ × ℝ) :
    quaternion_sandwich q0 (-q1) (-q2) (-q3) (quaternion_sandwich q0 q1 q2 q3 p) =
      smul3 ((q0 ^ 2 + q1 ^ 2 + q2 ^ 2 + q3 ^ 2) ^ 2) p := by
  simp only [quaternion_sandwich, smul3, Prod.mk.injEq]
  refine ⟨by ring, by ring, by ring⟩

lemma smul3_one (v : ℝ × ℝ × ℝ) : smul3 1 v = v := by
  simp [smul3]

lemma cross3_dot_left (a b : ℝ × ℝ × ℝ) : dot3 (cross3 a b) a = 0 := by
  simp only [cross3, dot3]
  ring

lemma cross3_dot_right (a b : ℝ × ℝ × ℝ) : dot3 (cross3 a b) b = 0 := by
  simp only [cross3, dot3]
  ring

/-- Lagrange identity for the cross product. -/
lemma cross3_dot_self (a b : ℝ × ℝ × ℝ) :
    dot3 (cross3 a b) (cross3 a b) = dot3 a a * dot3 b b - dot3 a b ^ 2 := by
  simp only [cross3, dot3]
  ring

lemma dot3_nonneg (v : ℝ × ℝ × ℝ) : 0 ≤ dot3 v v := by
  simp only [dot3]
  nlinarith [sq_nonneg v.1, sq_nonneg v.2.1, sq_nonneg v.2.2]

lemma mag3_ne_zero (v : ℝ × ℝ × ℝ) (h : dot3 v v ≠ 0) : mag3 v ≠ 0 := by
  have hpos : 0 < dot3 v v := lt_of_le_of_ne (dot3_nonneg v) (Ne.symm h)
  simp only [mag3]
  exact Real.sqrt_ne_zero'.mpr hpos

lemma mag3_mul_self (v : ℝ × ℝ × ℝ) : mag3 v * mag3 v = dot3 v v := by
  simp only [mag3]
  exact Real.mul_self_sqrt (dot3_nonneg v)

/-- Normalizing a vector of nonzero length yields a unit vector. -/
lemma dot3_normalize3_self (v : ℝ × ℝ × ℝ) (h : dot3 v v ≠ 0) :
    dot3 (normalize3 v) (normalize3 v) = 1 := by
  have hm := mag3_ne_zero v h
  simp only [normalize3, if_neg hm]
  have hms := mag3_mul_self v
  simp only [dot3] at h hms ⊢
  field_simp
  linarith [hms]

/-- Normalization preserves perpendicularity. -/
lemma dot3_normalize3_perp (v w : ℝ × ℝ × ℝ) (hv : dot3 v v ≠ 0)
    (hw : dot3 w w ≠ 0) (h : dot3 v w = 0) :
    dot3 (normalize3 v) (normalize3 w) = 0 := by
  have hmv := mag3_ne_zero v hv
  have hmw := mag3_ne_zero w hw
  simp only [normalize3, if_neg hmv, if_neg hmw]
  simp only [dot3] at h ⊢
  field_simp
  linarith [h]

/-! Entry lemmas for the view matrix: the right vector occupies row 0,
the re-orthogonalized up vector row 1 and the negated forward row 2. -/

lemma gvm00 (view : CameraData) :
    _generate_view_matrix view 0 0 =
      (cross3 (normalize3 view.forward) (normalize3 view.up)).1 := rfl

lemma gvm01 (view : CameraData) :
    _generate_view_matrix view 0 1 =
      (cross3 (normalize3 view.forward) (normalize3 view.up)).2.1 := rfl

lemma gvm02 (view : CameraData) :
    _generate_view_matrix view 0 2 =
      (cross3 (normalize3 view.forward) (normalize3 view.up)).2.2 := rfl

lemma gvm10 (view : CameraData) :
    _generate_view_matrix view 1 0 =
      (cross3 (cross3 (normalize3 view.forward) (normalize3 view.up))
        (normalize3 view.forward)).1 := rfl

lemma gvm11 (view : CameraData) :
    _generate_view_matrix view 1 1 =
      (cross3 (cross3 (normalize3 view.forward) (normalize3 view.up))
        (normalize3 view.forward)).2.1 := rfl

lemma gvm12 (view : CameraData) :
    _generate_view_matrix view 1 2 =
      (cross3 (cross3 (normalize3 view.forward) (normalize3 view.up))
        (normalize3 view.forward)).2.2 := rfl

lemma gvm20 (view : CameraData) :
    _generate_view_matrix view 2 0 = -(normalize3 view.forward).1 := rfl

lemma gvm21 (view : CameraData) :
    _generate_view_matrix view 2 1 = -(normalize3 view.forward).2.1 := rfl

lemma gvm22 (view : CameraData) :
    _generate_view_matrix view 2 2 = -(normalize3 view.forward).2.2 := rfl

/-- The squared norm of the quaternion built from half-angle cosine/sine
and a unit axis is 1. -/
lemma quaternion_qnorm_unit (c s : ℝ) (axis : ℝ × ℝ × ℝ)
    (hcs : s ^ 2 + c ^ 2 = 1) (haxis : dot3 axis axis = 1) :
    c ^ 2 + (s * axis.1) ^ 2 + (s * axis.2.1) ^ 2 + (s * axis.2.2) ^ 2 = 1 := by
  simp only [dot3] at haxis
  linear_combination s ^ 2 * haxis + hcs

/-- Unit-axis instance of `quaternion_sandwich_norm`. -/
lemma quaternion_sandwich_unit_norm (c s : ℝ) (axis p : ℝ × ℝ × ℝ)
    (hcs : s ^ 2 + c ^ 2 = 1) (haxis : dot3 axis axis = 1) :
    dot3 (quaternion_sandwich c (s * axis.1) (s * axis.2.1) (s * axis.2.2) p)
      (quaternion_sandwich c (s * axis.1) (s * axis.2.1) (s * axis.2.2) p) =
      dot3 p p := by
  rw [quaternion_sandwich_norm, quaternion_qnorm_unit c s axis hcs haxis]
  norm_num

/-- Unit-axis instance of `quaternion_sandwich_conj`. -/
lemma quaternion_sandwich_unit_conj (c s : ℝ) (axis p : ℝ × ℝ × ℝ)
    (hcs : s ^ 2 + c ^ 2 = 1) (haxis : dot3 axis axis = 1) :
    quaternion_sandwich c (-(s * axis.1)) (-(s * axis.2.1)) (-(s * axis.2.2))
      (quaternion_sandwich c (s * axis.1) (s * axis.2.1) (s * axis.2.2) p) = p := by
  rw [quaternion_sandwich_conj, quaternion_qnorm_unit c s axis hcs haxis]
  norm_num [smul3_one]

/-- The half-angle argument for the negated angle is the negation of the
half-angle argument for the angle. -/
lemma half_angle_neg (θ : ℝ) :
    (-(radians (-θ))) / 2 = -((-(radians θ)) / 2) := by
  simp only [radians]
  ring

/-- `use` always reassigns the window's current camera to the projector
being used, whether or not matrix generation raises afterwards. -/
lemma use_fst_current_camera (p : PerspectiveProjector) (w : Window) :
    ((use p w).1).current_camera = some p := by
  unfold use
  cases h : _generate_projection_matrix p <;> simp

/-- Claim C1: for every projector `p` and every caller block run inside
`p.activate()`, the projector that was active on the window before entry
is re-activated on every exit path — the `finally` clause calls
`previous_projector.use()` whether the block returned normally or raised
— so afterwards the window's current camera is the previously recorded
projector. -/
theorem activate_restores_previous_projector (p : PerspectiveProjector)
    (block : Window → Window × Bool) (w : Window) (q : PerspectiveProjector)
    (h : w.current_camera = some q) :
    ((activate p block w).1).current_camera = some q := by
  simp only [activate, h]
  exact use_fst_current_camera q _

/-- Witness for C1 at a concrete projector, window and a block that
raises: the previous camera `proj0` is current again afterwards. -/
theorem activate_restores_previous_projector_witness :
    w0.current_camera = some proj0 ∧
      ((activate projB blockRaise w0).1).current_camera = some proj0 :=
  ⟨rfl, activate_restores_previous_projector projB blockRaise w0 proj0 rfl⟩

/-- Claim C5: entering a projector's scoped activation when the window
has no current camera surfaces an explicit error to the caller (the
`finally` clause's `previous_projector.use()` raises `AttributeError` on
`None`), rather than silently succeeding. -/
theorem activate_without_previous_camera_errors (p : PerspectiveProjector)
    (block : Window → Window × Bool) (w : Window)
    (h : w.current_camera = none) :
    (activate p block w).2 = some PyErr.attributeError := by
  simp only [activate, h]

/-- Witness for C5 at a concrete projector and camera-less window. -/
theorem activate_without_previous_camera_errors_witness :
    wNone.current_camera = none ∧
      (activate proj0 blockOk wNone).2 = some PyErr.attributeError :=
  ⟨rfl, activate_without_previous_camera_errors proj0 blockOk wNone rfl⟩

/-- Claim C2 (code bug): the code's `CameraStack.__init__` creates an
EMPTY stack (length 0, not the claimed 1), and consequently `pop()`
after a single `push` onto a fresh stack raises
`ValueError("Cannot pop final element of CameraStack")` instead of
returning the pushed state. -/
theorem camera_stack_starts_empty_and_pop_after_first_push_fails :
    CameraStack.init._stack.length = 0 ∧
      ∀ st : CameraState,
        (CameraStack.init.push st).pop = Except.error PyErr.valueError :=
  ⟨rfl, fun _ => rfl⟩

/-- Claim C6 (code bug): `CameraStack.clear` empties the underlying list
entirely, leaving length 0, not the claimed length 1 (the statement after
`self._stack.clear()` is truncated mid-expression in the source and
begins with a context access, not a stack access). -/
theorem camera_stack_clear_empties_the_stack (s : CameraStack) :
    (s.clear)._stack.length = 0 := rfl

/-- Claim C10: `simple_follow_2D` delegates with target z = 0, so the
position becomes `((1-t)x + t*tx, (1-t)y + t*ty, (1-t)z)`; in particular
the z coordinate is interpolated toward 0 and changes whenever the
initial z and the speed are both nonzero. -/
theorem simple_follow_2D_interpolates_z_toward_zero (t tx ty : ℝ)
    (data : CameraData) :
    (simple_follow_2D t (tx, ty) data).position =
      ((1 - t) * data.position.1 + t * tx,
       (1 - t) * data.position.2.1 + t * ty,
       (1 - t) * data.position.2.2) ∧
    (data.position.2.2 ≠ 0 → t ≠ 0 →
      (simple_follow_2D t (tx, ty) data).position.2.2 ≠ data.position.2.2) := by
  constructor
  · simp only [simple_follow_2D, simple_follow, _interpolate_3D, Prod.mk.injEq]
    refine ⟨by ring, by ring, by ring⟩
  · intro hz ht
    simp only [simple_follow_2D, simple_follow, _interpolate_3D]
    intro hEq
    have hmul : t * data.position.2.2 = 0 := by linarith [hEq]
    rcases mul_eq_zero.mp hmul with h | h
    · exact ht h
    · exact hz h

/-- Witness for C10 at `camZ` (position z = 1) with speed 1/2 and target
(3, 4): the position moves to (3/2, 2, 1/2) and the z coordinate has
changed. -/
theorem simple_follow_2D_interpolates_z_toward_zero_witness :
    (simple_follow_2D (1 / 2) (3, 4) camZ).position =
      ((1 - 1 / 2) * camZ.position.1 + (1 / 2) * 3,
       (1 - 1 / 2) * camZ.position.2.1 + (1 / 2) * 4,
       (1 - 1 / 2) * camZ.position.2.2) ∧
      (simple_follow_2D (1 / 2) (3, 4) camZ).position.2.2 ≠ camZ.position.2.2 := by
  have h := simple_follow_2D_interpolates_z_toward_zero (1 / 2) 3 4 camZ
  refine ⟨h.1, h.2 ?_ ?_⟩
  · show (1 : ℝ) ≠ 0
    norm_num
  · norm_num

/-- Claim C8: for every unit axis, every vector and every angle,
`quaternion_rotation` preserves the vector's magnitude, and applying it
again with the same axis and the negated angle returns the original
vector exactly (real-arithmetic idealisation of the floating tolerance). -/
theorem quaternion_rotation_magnitude_and_inverse (axis v : ℝ × ℝ × ℝ) (θ : ℝ)
    (h : dot3 axis axis = 1) :
    mag3 (quaternion_rotation axis v θ) = mag3 v ∧
      quaternion_rotation axis (quaternion_rotation axis v θ) (-θ) = v := by
  have hcs : Real.sin ((-(radians θ)) / 2) ^ 2 + Real.cos ((-(radians θ)) / 2) ^ 2 = 1 :=
    Real.sin_sq_add_cos_sq _
  constructor
  · rw [quaternion_rotation_eq_sandwich]
    unfold mag3
    rw [quaternion_sandwich_unit_norm _ _ _ _ hcs h]
  · rw [quaternion_rotation_eq_sandwich, quaternion_rotation_eq_sandwich,
      half_angle_neg, Real.cos_neg, Real.sin_neg, neg_mul, neg_mul, neg_mul]
    exact quaternion_sandwich_unit_conj _ _ _ _ hcs h

/-- Witness for C8 at the unit axis (0,0,1), vector (1,2,3), angle 90. -/
theorem quaternion_rotation_magnitude_and_inverse_witness :
    dot3 ((0 : ℝ), (0 : ℝ), (1 : ℝ)) ((0 : ℝ), (0 : ℝ), (1 : ℝ)) = 1 ∧
      (mag3 (quaternion_rotation (0, 0, 1) (1, 2, 3) 90) = mag3 (1, 2, 3) ∧
        quaternion_rotation (0, 0, 1)
          (quaternion_rotation (0, 0, 1) (1, 2, 3) 90) (-90) = (1, 2, 3)) :=
  ⟨by norm_num [dot3],
   quaternion_rotation_magnitude_and_inverse (0, 0, 1) (1, 2, 3) 90
     (by norm_num [dot3])⟩

/-- Evaluation of the spec's scenario: rotating (0,0,-1) about (0,1,0) by
90 degrees under the implementation's negated-angle convention gives
exactly (+1, 0, 0). -/
lemma quaternion_rotation_y90_eval :
    quaternion_rotation ((0 : ℝ), (1 : ℝ), (0 : ℝ)) ((0 : ℝ), (0 : ℝ), (-1 : ℝ)) 90 =
      (1, 0, 0) := by
  rw [quaternion_rotation_eq_sandwich]
  have harg : (-(radians 90)) / 2 = -(Real.pi / 4) := by
    simp only [radians]
    ring
  rw [harg, Real.cos_neg, Real.sin_neg, Real.cos_pi_div_four, Real.sin_pi_div_four]
  have h2 : Real.sqrt 2 * Real.sqrt 2 = 2 := Real.mul_self_sqrt (by norm_num)
  simp only [quaternion_sandwich, Prod.mk.injEq]
  refine ⟨by nlinarith [h2], by nlinarith [h2], by nlinarith [h2]⟩

/-- Claim C4 (counterexample): the spec's scenario
`quaternionRotate((0,1,0), (0,0,-1), 90)` does NOT yield (-1, 0, 0) —
the implementation's negated-angle convention sends it to (+1, 0, 0),
whose x component differs from the claimed value by 2, far beyond any
floating tolerance. -/
theorem quaternion_rotation_y90_not_neg_x :
    quaternion_rotation ((0 : ℝ), (1 : ℝ), (0 : ℝ)) ((0 : ℝ), (0 : ℝ), (-1 : ℝ)) 90 ≠
      ((-1 : ℝ), (0 : ℝ), (0 : ℝ)) := by
  rw [quaternion_rotation_y90_eval]
  intro h
  have hx : (1 : ℝ) = -1 := congrArg Prod.fst h
  norm_num at hx

/-- Claim C4 (amended): `quaternionRotate((0,1,0), (0,0,-1), 90)` yields
exactly (+1, 0, 0) under the documented negated-angle convention. -/
theorem quaternion_rotation_y90_pos_x :
    quaternion_rotation ((0 : ℝ), (1 : ℝ), (0 : ℝ)) ((0 : ℝ), (0 : ℝ), (-1 : ℝ)) 90 =
      ((1 : ℝ), (0 : ℝ), (0 : ℝ)) :=
  quaternion_rotation_y90_eval

lemma normalize3_forward_unit :
    normalize3 ((0 : ℝ), (0 : ℝ), (-1 : ℝ)) = ((0 : ℝ), (0 : ℝ), (-1 : ℝ)) := by
  have hm : mag3 ((0 : ℝ), (0 : ℝ), (-1 : ℝ)) = 1 := by
    simp only [mag3, dot3]
    norm_num
  simp [normalize3, hm]

lemma normalize3_up_034 :
    normalize3 ((0 : ℝ), (3 : ℝ), (4 : ℝ)) = ((0 : ℝ), (3 / 5 : ℝ), (4 / 5 : ℝ)) := by
  have hm : mag3 ((0 : ℝ), (3 : ℝ), (4 : ℝ)) = 5 := by
    simp only [mag3, dot3]
    rw [show (0 : ℝ) * 0 + 3 * 3 + 4 * 4 = 5 ^ 2 by norm_num]
    exact Real.sqrt_sq (by norm_num)
  rw [normalize3, if_neg (by rw [hm]; norm_num), hm]
  norm_num

/-- Claim C3 (counterexample): for the input up (0,3,4), which is not
perpendicular to the forward (0,0,-1), the right-basis row of the view
matrix has squared length 9/25 — the code never normalizes
`ri = fo.cross(up)`, so the right and re-orthogonalized up rows are NOT
unit length when the input up deviates from perpendicularity. -/
theorem view_matrix_right_row_not_unit :
    _generate_view_matrix view_c3 0 0 * _generate_view_matrix view_c3 0 0 +
      _generate_view_matrix view_c3 0 1 * _generate_view_matrix view_c3 0 1 +
      _generate_view_matrix view_c3 0 2 * _generate_view_matrix view_c3 0 2 ≠ 1 := by
  rw [gvm00, gvm01, gvm02]
  have hvf : view_c3.forward = ((0 : ℝ), (0 : ℝ), (-1 : ℝ)) := rfl
  have hvu : view_c3.up = ((0 : ℝ), (3 : ℝ), (4 : ℝ)) := rfl
  rw [hvf, hvu, normalize3_forward_unit, normalize3_up_034]
  simp only [cross3]
  norm_num

/-- Claim C3 (amended): the three basis rows of the view matrix are
mutually orthogonal, and they are all unit length provided the input up
is perpendicular to the input forward (and both are nonzero); for
non-perpendicular input up the right and re-orthogonalized up rows are
not unit (see the counterexample), because the code never normalizes the
computed right vector. -/
theorem view_matrix_basis_orthonormal_of_perp (view : CameraData)
    (hf : dot3 view.forward view.forward ≠ 0)
    (hu : dot3 view.up view.up ≠ 0)
    (hperp : dot3 view.forward view.up = 0) :
    (_generate_view_matrix view 0 0 * _generate_view_matrix view 0 0 +
       _generate_view_matrix view 0 1 * _generate_view_matrix view 0 1 +
       _generate_view_matrix view 0 2 * _generate_view_matrix view 0 2 = 1) ∧
    (_generate_view_matrix view 1 0 * _generate_view_matrix view 1 0 +
       _generate_view_matrix view 1 1 * _generate_view_matrix view 1 1 +
       _generate_view_matrix view 1 2 * _generate_view_matrix view 1 2 = 1) ∧
    (_generate_view_matrix view 2 0 * _generate_view_matrix view 2 0 +
       _generate_view_matrix view 2 1 * _generate_view_matrix view 2 1 +
       _generate_view_matrix view 2 2 * _generate_view_matrix view 2 2 = 1) ∧
    (_generate_view_matrix view 0 0 * _generate_view_matrix view 1 0 +
       _generate_view_matrix view 0 1 * _generate_view_matrix view 1 1 +
       _generate_view_matrix view 0 2 * _generate_view_matrix view 1 2 = 0) ∧
    (_generate_view_matrix view 0 0 * _generate_view_matrix view 2 0 +
       _generate_view_matrix view 0 1 * _generate_view_matrix view 2 1 +
       _generate_view_matrix view 0 2 * _generate_view_matrix view 2 2 = 0) ∧
    (_generate_view_matrix view 1 0 * _generate_view_matrix view 2 0 +
       _generate_view_matrix view 1 1 * _generate_view_matrix view 2 1 +
       _generate_view_matrix view 1 2 * _generate_view_matrix view 2 2 = 0) := by
  have h1 : dot3 (normalize3 view.forward) (normalize3 view.forward) = 1 :=
    dot3_normalize3_self _ hf
  have h2 : dot3 (normalize3 view.up) (normalize3 view.up) = 1 :=
    dot3_normalize3_self _ hu
  have h3 : dot3 (normalize3 view.forward) (normalize3 view.up) = 0 :=
    dot3_normalize3_perp _ _ hf hu hperp
  have hriri : dot3 (cross3 (normalize3 view.forward) (normalize3 view.up))
      (cross3 (normalize3 view.forward) (normalize3 view.up)) = 1 := by
    rw [cross3_dot_self, h1, h2, h3]
    norm_num
  have hrifo : dot3 (cross3 (normalize3 view.forward) (normalize3 view.up))
      (normalize3 view.forward) = 0 := cross3_dot_left _ _
  have hupup : dot3 (cross3 (cross3 (normalize3 view.forward) (normalize3 view.up))
        (normalize3 view.forward))
      (cross3 (cross3 (normalize3 view.forward) (normalize3 view.up))
        (normalize3 view.forward)) = 1 := by
    rw [cross3_dot_self, hriri, h1, hrifo]
    norm_num
  have hupri : dot3 (cross3 (cross3 (normalize3 view.forward) (normalize3 view.up))
        (normalize3 view.forward))
      (cross3 (normalize3 view.forward) (normalize3 view.up)) = 0 :=
    cross3_dot_left _ _
  have hupfo : dot3 (cross3 (cross3 (normalize3 view.forward) (normalize3 view.up))
        (normalize3 view.forward))
      (normalize3 view.forward) = 0 := cross3_dot_right _ _
  rw [gvm00, gvm01, gvm02, gvm10, gvm11, gvm12, gvm20, gvm21, gvm22]
  simp only [dot3] at hriri hupup h1 hrifo hupri hupfo
  refine ⟨by linarith [hriri], by linarith [hupup], by linear_combination h1,
    by linear_combination hupri, by linear_combination -hrifo,
    by linear_combination -hupfo⟩

/-- Witness for C3 (amended) at `cam0` (forward (0,0,-1), up (0,1,0),
which are perpendicular): the right row of the view matrix is unit. -/
theorem view_matrix_basis_orthonormal_of_perp_witness :
    dot3 cam0.forward cam0.up = 0 ∧
      (_generate_view_matrix cam0 0 0 * _generate_view_matrix cam0 0 0 +
        _generate_view_matrix cam0 0 1 * _generate_view_matrix cam0 0 1 +
        _generate_view_matrix cam0 0 2 * _generate_view_matrix cam0 0 2 = 1) :=
  ⟨by norm_num [dot3, cam0],
   (view_matrix_basis_orthonormal_of_perp cam0 (by norm_num [dot3, cam0])
     (by norm_num [dot3, cam0]) (by norm_num [dot3, cam0])).1⟩

/-- Claim C7: whenever the combined projection*view matrix is singular
(including the `near == far` case, where the projection matrix generation
itself divides by zero), `map_coordinate` surfaces an explicit error to
the caller and never returns coordinates.  In this exact-arithmetic
embedding the error is the `ZeroDivisionError` arising inside the matrix
library (the code contains no bespoke singularity check). -/
theorem map_coordinate_singular_errors (p : PerspectiveProjector) (screen : ℝ × ℝ)
    (h : ∀ P, _generate_projection_matrix p = Except.ok P →
        (P * _generate_view_matrix p._view).det = 0) :
    ∃ e, map_coordinate p screen = Except.error e := by
  unfold map_coordinate
  cases h1 : pydiv (2 * (screen.1 - (p._view.viewport.1 : ℝ)))
      (p._view.viewport.2.2.1 : ℝ) with
  | error e =>
    exact ⟨e, by simp only [h1, Except.bind]⟩
  | ok sx =>
    cases h2 : pydiv (2 * (screen.2 - (p._view.viewport.2.1 : ℝ)))
        (p._view.viewport.2.2.2 : ℝ) with
    | error e =>
      exact ⟨e, by simp only [h1, h2, Except.bind]⟩
    | ok sy =>
      cases h3 : _generate_projection_matrix p with
      | error e =>
        exact ⟨e, by simp only [h1, h2, h3, Except.bind]⟩
      | ok P =>
        refine ⟨PyErr.zeroDivisionError, ?_⟩
        have hdet := h P h3
        simp only [h1, h2, h3, Except.bind, mat4_invert]
        rw [if_pos hdet]

/-- Witness for C7 at `projSingular` (`near == far == 1`): projection
generation already fails with a division by zero, so the hypothesis holds
vacuously and `map_coordinate` surfaces an error. -/
theorem map_coordinate_singular_errors_witness :
    (∀ P, _generate_projection_matrix projSingular = Except.ok P →
        (P * _generate_view_matrix projSingular._view).det = 0) ∧
      ∃ e, map_coordinate projSingular (0, 0) = Except.error e := by
  have hgen : _generate_projection_matrix projSingular =
      Except.error PyErr.zeroDivisionError := by
    norm_num [_generate_projection_matrix, perspective_projection, pydiv,
      projSingular, cam0, Except.bind]
  have hyp : ∀ P, _generate_projection_matrix projSingular = Except.ok P →
      (P * _generate_view_matrix projSingular._view).det = 0 := by
    intro P hP
    rw [hgen] at hP
    exact absurd hP (by simp)
  exact ⟨hyp, map_coordinate_singular_errors projSingular (0, 0) hyp⟩

/-- Claim C9 (code bug): `rotate_around_right` raises `TypeError` on
every invocation — its first statement unpacks the up tuple into three
positional arguments to pyglet's one-parameter `Vec3.cross` — so neither
rotation is ever performed and no round trip with angle θ then -θ of the
claimed kind can even begin. -/
theorem rotate_around_right_always_raises_type_error (data : CameraData)
    (angle : ℝ) :
    rotate_around_right data angle = Except.error PyErr.typeError := rfl
